import Mathlib

/-!
Shallow embedding of `src/src/algorithms/balancing_algorithm.hpp`
(SYNAPSE Neural Connection Layer - Hardware-Software Balancing Algorithm).

Doubles in the source are modelled as exact rationals (ℚ); `std::chrono`
time points are modelled as integer seconds.  Each definition mirrors one
C++ function of the header, keeping its name where Lean allows it.
-/

namespace Synapse

/-- Source constants: struct Thresholds (lines 34-57). -/
def IDI_HEALTHY : ℚ := 3

def IDI_WARNING : ℚ := 5

def IDI_CRITICAL : ℚ := 7

def IDI_QUARANTINE : ℚ := 10

def TEMPERATURE_WARNING : ℚ := 70

def TEMPERATURE_CRITICAL : ℚ := 85

def HW_SW_IMBALANCE_THRESHOLD : ℚ := 3/10

def LATENCY_WARNING_MS : ℚ := 100

def LATENCY_CRITICAL_MS : ℚ := 500

/-- Source enum SeverityLevel (lines 63-68). -/
inductive SeverityLevel where
  | HEALTHY
  | WARNING
  | CRITICAL
  | QUARANTINE
deriving DecidableEq, Repr

/-- Source enum MitigationAction (lines 70-78). -/
inductive MitigationAction where
  | NONE
  | THROTTLE
  | BRAKE
  | QUARANTINE
  | REBALANCE
  | ALERT
  | AUTO_INTEGRATE
deriving DecidableEq, Repr

/-- Source struct TelemetryData (lines 91-104); the timestamp is dropped
(no claim depends on it) and doubles become ℚ. -/
structure TelemetryData where
  component_id : String
  cpu_usage : ℚ
  memory_usage : ℚ
  io_latency_ms : ℚ
  network_latency_ms : ℚ
  error_rate : ℚ
  throughput : ℚ
  temperature : Option ℚ
deriving DecidableEq

/-- Source struct MitigationResult (lines 106-116), timestamp dropped. -/
structure MitigationResult where
  action : MitigationAction
  component_id : String
  reason : String
  idi_score : ℚ
  throttle_level : ℚ
  imbalance : ℚ
deriving DecidableEq

/-- Source struct BalanceMetrics (lines 118-123), timestamp dropped. -/
structure BalanceMetrics where
  hw_capacity : ℚ
  sw_demand : ℚ
  imbalance : ℚ
deriving DecidableEq

/-- `std::min` on doubles, modelled on ℚ (kernel-reducible). -/
def minQ (a b : ℚ) : ℚ := if b < a then b else a

/-- `std::max` on doubles, modelled on ℚ (kernel-reducible). -/
def maxQ (a b : ℚ) : ℚ := if a < b then b else a

/-- `std::abs` on doubles, modelled on ℚ (kernel-reducible). -/
def absQ (a : ℚ) : ℚ := if a < 0 then -a else a

/-- `std::clamp(x, lo, hi)` for rationals (assumes `lo ≤ hi`). -/
def clampQ (x lo hi : ℚ) : ℚ := maxQ lo (minQ x hi)

/-- `static_cast<int>` applied to a double: truncation toward zero. -/
def ratTrunc (q : ℚ) : ℤ := if 0 ≤ q then ⌊q⌋ else ⌈q⌉

/-- Round to the nearest integer (the operation the spec sentence for
`predict` names); used only to compare against the source's cast. -/
def ratRound (q : ℚ) : ℤ := ⌊q + 1/2⌋

/-- `std::max` on ints, modelled on ℤ (kernel-reducible). -/
def maxI (a b : ℤ) : ℤ := if a < b then b else a

namespace IDICalculator

/-- Source IDICalculator::calculate (lines 136-142). -/
def calculate (days loc_changed dependencies : ℤ) : ℚ :=
  let d : ℚ := ((maxI days 0 : ℤ) : ℚ)
  let l : ℚ := ((maxI loc_changed 0 : ℤ) : ℚ) / 1000
  let dep : ℚ := ((maxI dependencies 1 : ℤ) : ℚ) / 10
  d * l * dep

/-- Source IDICalculator::getSeverity (lines 144-149). -/
def getSeverity (idi : ℚ) : SeverityLevel :=
  if idi < IDI_HEALTHY then SeverityLevel.HEALTHY
  else if idi < IDI_WARNING then SeverityLevel.WARNING
  else if idi < IDI_QUARANTINE then SeverityLevel.CRITICAL
  else SeverityLevel.QUARANTINE

/-- Source IDICalculator::predictIDI (lines 154-159): the C++ computes
`future_loc = current_loc + static_cast<int>(daily_loc_rate * days_ahead)`,
a truncation toward zero. -/
def predictIDI (current_days current_loc dependencies days_ahead : ℤ)
    (daily_loc_rate : ℚ) : ℚ :=
  let future_days := current_days + days_ahead
  let future_loc := current_loc + ratTrunc (daily_loc_rate * (days_ahead : ℚ))
  calculate future_days future_loc dependencies

end IDICalculator

/-- State of the source class PIDController (lines 171-184): gains, target,
accumulated integral and previous error. -/
structure PIDState where
  kp : ℚ
  ki : ℚ
  kd : ℚ
  target : ℚ
  integral : ℚ
  previous_error : ℚ
deriving DecidableEq

namespace PIDController

/-- Source PIDController::calculate (lines 199-218): returns the clamped
adjustment together with the updated controller state. -/
def calculate (st : PIDState) (current_value : ℚ) : ℚ × PIDState :=
  let error := st.target - current_value
  let p_term := st.kp * error
  let integral := clampQ (st.integral + error) (-50) 50
  let i_term := st.ki * integral
  let d_term := st.kd * (error - st.previous_error)
  let adjustment := (p_term + i_term + d_term) / 100
  (clampQ adjustment (-(3/10)) (3/10),
   { st with integral := integral, previous_error := error })

/-- n consecutive calls of `calculate` with the same input, tracking state. -/
def iterate (st : PIDState) (current_value : ℚ) : Nat → PIDState
  | 0 => st
  | n + 1 => (calculate (iterate st current_value n) current_value).2

end PIDController

namespace HardwareSoftwareBalancer

/-- moving_avg_window_ of the source class (line 236). -/
def moving_avg_window : Nat := 10

/-- Source HardwareSoftwareBalancer::calculateHardwareCapacity
(lines 250-270). -/
def calculateHardwareCapacity (t : TelemetryData) : ℚ :=
  let cpu_capacity := 100 - t.cpu_usage
  let memory_capacity := 100 - t.memory_usage
  let temp_factor : ℚ :=
    match t.temperature with
    | some temp =>
        if temp > TEMPERATURE_CRITICAL then 3/10
        else if temp > TEMPERATURE_WARNING then 7/10
        else 1
    | none => 1
  cpu_capacity * (4/10) + memory_capacity * (4/10) + 100 * temp_factor * (2/10)

/-- Source HardwareSoftwareBalancer::calculateSoftwareDemand
(lines 277-297); target_throughput_ is the explicit first argument. -/
def calculateSoftwareDemand (target_throughput : ℚ) (t : TelemetryData) : ℚ :=
  let throughput_demand := minQ (t.throughput / target_throughput * 100) 100
  let latency_urgency : ℚ :=
    if t.io_latency_ms > LATENCY_CRITICAL_MS then 100
    else if t.io_latency_ms > LATENCY_WARNING_MS then 70
    else t.io_latency_ms / LATENCY_WARNING_MS * 50
  let error_stress := minQ (t.error_rate * 1000) 100
  throughput_demand * (5/10) + latency_urgency * (3/10) + error_stress * (2/10)

/-- Source HardwareSoftwareBalancer::calculateImbalance (lines 306-309). -/
def calculateImbalance (hw_capacity sw_demand : ℚ) : ℚ :=
  if hw_capacity + sw_demand = 0 then 0
  else (hw_capacity - sw_demand) / 100

/-- Source HardwareSoftwareBalancer::getBalancingAction (lines 314-349). -/
def getBalancingAction (imbalance : ℚ) (component_id : String)
    (current_throttle : ℚ) : MitigationResult :=
  let threshold := HW_SW_IMBALANCE_THRESHOLD
  if absQ imbalance < threshold then
    { action := MitigationAction.NONE
      component_id := component_id
      reason := "System is balanced"
      idi_score := 0
      throttle_level := current_throttle
      imbalance := imbalance }
  else if imbalance < -threshold then
    let throttle_amount := minQ (absQ imbalance) (5/10)
    let new_throttle := maxQ (current_throttle - throttle_amount) (2/10)
    { action := MitigationAction.THROTTLE
      component_id := component_id
      reason := "Hardware overloaded - throttling software"
      idi_score := 0
      throttle_level := new_throttle
      imbalance := imbalance }
  else
    let boost_potential := minQ imbalance (3/10)
    { action := MitigationAction.ALERT
      component_id := component_id
      reason := "Hardware underutilized - boost potential available"
      idi_score := 0
      throttle_level := minQ (current_throttle + boost_potential) 1
      imbalance := imbalance }

/-- The eviction loop of HardwareSoftwareBalancer::balance (lines 370-372):
`while (history_.size() > moving_avg_window_ * 2) history_.pop_front();`. -/
def evictOld : List BalanceMetrics → List BalanceMetrics
  | [] => []
  | x :: xs =>
      if moving_avg_window * 2 < (x :: xs).length then evictOld xs
      else x :: xs

/-- Source HardwareSoftwareBalancer::balance (lines 354-391): the deque
history is passed and returned explicitly, front = oldest. -/
def balance (target_throughput : ℚ) (history : List BalanceMetrics)
    (t : TelemetryData) (current_throttle : ℚ) :
    List BalanceMetrics × MitigationResult :=
  let hw_capacity := calculateHardwareCapacity t
  let sw_demand := calculateSoftwareDemand target_throughput t
  let imbalance := calculateImbalance hw_capacity sw_demand
  let history1 := evictOld (history ++ [⟨hw_capacity, sw_demand, imbalance⟩])
  let avg_imbalance :=
    if moving_avg_window ≤ history1.length then
      ((history1.drop (history1.length - moving_avg_window)).map
          BalanceMetrics.imbalance).sum / (moving_avg_window : ℚ)
    else imbalance
  (history1, getBalancingAction avg_imbalance t.component_id current_throttle)

/-- The BalanceSample `balance` appends for a snapshot: instantaneous
capacity, demand and imbalance (the record built at source lines 362-367). -/
def mkSample (target_throughput : ℚ) (t : TelemetryData) : BalanceMetrics :=
  { hw_capacity := calculateHardwareCapacity t
    sw_demand := calculateSoftwareDemand target_throughput t
    imbalance := calculateImbalance (calculateHardwareCapacity t)
      (calculateSoftwareDemand target_throughput t) }

end HardwareSoftwareBalancer

namespace IDIBrake

/-- Source IDIBrake::calculateThrottleLevel (lines 430-457). -/
def calculateThrottleLevel (idi : ℚ) : ℚ :=
  if idi < IDI_HEALTHY then 1
  else if idi < IDI_WARNING then
    1 - (idi - IDI_HEALTHY) / (IDI_WARNING - IDI_HEALTHY) * (3/10)
  else if idi < IDI_CRITICAL then
    7/10 - (idi - IDI_WARNING) / (IDI_CRITICAL - IDI_WARNING) * (4/10)
  else if idi < IDI_QUARANTINE then
    3/10 - (idi - IDI_CRITICAL) / (IDI_QUARANTINE - IDI_CRITICAL) * (2/10)
  else 0

/-- The linear formula of the source's 3.0 ≤ idi < 5.0 segment (lines
435-440), as a total function of idi. -/
def seg_warning (idi : ℚ) : ℚ :=
  1 - (idi - IDI_HEALTHY) / (IDI_WARNING - IDI_HEALTHY) * (3/10)

/-- The linear formula of the source's 5.0 ≤ idi < 7.0 segment (lines
442-447), as a total function of idi. -/
def seg_critical (idi : ℚ) : ℚ :=
  7/10 - (idi - IDI_WARNING) / (IDI_CRITICAL - IDI_WARNING) * (4/10)

/-- The linear formula of the source's 7.0 ≤ idi < 10.0 segment (lines
449-454), as a total function of idi. -/
def seg_near_stop (idi : ℚ) : ℚ :=
  3/10 - (idi - IDI_CRITICAL) / (IDI_QUARANTINE - IDI_CRITICAL) * (2/10)

end IDIBrake

/-- Truncating integer division (C++ integral division, toward zero);
models `std::chrono::duration_cast` on an integer number of seconds. -/
def tdivInt (a b : ℤ) : ℤ := if 0 ≤ a then a / b else -((-a) / b)

namespace NeuralPruning

/-- Source NeuralPruning::canRestore (lines 550-565): time points are
modelled as integer seconds; `duration_cast<hours>` is truncating division
by 3600. -/
def canRestore (idi health_score : ℚ) (now quarantined_at : ℤ) : Bool :=
  if IDI_WARNING ≤ idi then false
  else if health_score < 70 then false
  else if tdivInt (now - quarantined_at) 3600 < 1 then false
  else true

end NeuralPruning

namespace CombinedThrottleCalculator

/-- Source CombinedThrottleCalculator::calculate (lines 588-601). -/
def calculate (idi_throttle balance_throttle : ℚ) (is_quarantined : Bool) : ℚ :=
  if is_quarantined then 0
  else minQ idi_throttle balance_throttle

end CombinedThrottleCalculator

/-- The concrete telemetry snapshot of the spec's end-to-end scenario:
cpu 90, memory 60, io latency 50 ms, error rate 0.001, throughput 1200,
no temperature. -/
def scenarioSnapshot : TelemetryData :=
  { component_id := "component-1"
    cpu_usage := 90
    memory_usage := 60
    io_latency_ms := 50
    network_latency_ms := 0
    error_rate := 1/1000
    throughput := 1200
    temperature := none }

/-- A concrete PID controller state with the source's default gains
(kp 0.5, ki 0.1, kd 0.05, target 70) and freshly reset history. -/
def pidDefaultState : PIDState :=
  { kp := 1/2, ki := 1/10, kd := 1/20, target := 70
    integral := 0, previous_error := 0 }

-- ---------------------------------------------------------------------------
-- Bridge lemmas between the C++-style helpers and Mathlib's lattice ops
-- ---------------------------------------------------------------------------

theorem minQ_eq_min (a b : ℚ) : minQ a b = min a b := by
  rcases lt_or_ge b a with h | h
  · simp [minQ, h, min_eq_right h.le]
  · simp [minQ, not_lt.2 h, min_eq_left h]

theorem maxQ_eq_max (a b : ℚ) : maxQ a b = max a b := by
  rcases lt_or_ge a b with h | h
  · simp [maxQ, h, max_eq_right h.le]
  · simp [maxQ, not_lt.2 h, max_eq_left h]

theorem absQ_eq_abs (a : ℚ) : absQ a = |a| := by
  rcases lt_or_ge a 0 with h | h
  · simp [absQ, h, abs_of_neg h]
  · simp [absQ, not_lt.2 h, abs_of_nonneg h]

theorem clampQ_eq (x lo hi : ℚ) : clampQ x lo hi = max lo (min x hi) := by
  rw [clampQ, minQ_eq_min, maxQ_eq_max]

theorem maxI_eq_max (a b : ℤ) : maxI a b = max a b := by
  rcases lt_or_ge a b with h | h
  · simp [maxI, h, max_eq_right h.le]
  · simp [maxI, not_lt.2 h, max_eq_left h]

-- ---------------------------------------------------------------------------
-- Claim theorems
-- ---------------------------------------------------------------------------

/-- C1: for every pair of throttle inputs and quarantine flag,
`ThrottleCombiner.combine` returns 0 when quarantined and otherwise the
minimum of the two throttles; in particular combine(0.8, 0.3, false) = 0.3
and combine(0.8, 0.3, true) = 0. -/
theorem C1_combine_min_unless_quarantined :
    (∀ brake_throttle balance_throttle : ℚ,
        CombinedThrottleCalculator.calculate brake_throttle balance_throttle true = 0) ∧
    (∀ brake_throttle balance_throttle : ℚ,
        CombinedThrottleCalculator.calculate brake_throttle balance_throttle false =
          min brake_throttle balance_throttle) ∧
    CombinedThrottleCalculator.calculate (8/10) (3/10) false = 3/10 ∧
    CombinedThrottleCalculator.calculate (8/10) (3/10) true = 0 := by
  refine ⟨fun b t => rfl, fun b t => ?_, ?_, rfl⟩
  · simp [CombinedThrottleCalculator.calculate, minQ_eq_min]
  · norm_num [CombinedThrottleCalculator.calculate, minQ]

/-- C2 counterexample: at the quarantine threshold (debt = 10) the brake
curve returns 0, while the adjacent segment's linear formula (the source's
7 ≤ idi < 10 segment) tends to 1/10 there — so the curve is NOT continuous
at the breakpoint 10, refuting the claim as stated. -/
theorem C2_counterexample_jump_at_ten :
    IDIBrake.calculateThrottleLevel 10 = 0 ∧
    IDIBrake.seg_near_stop 10 = 1/10 ∧
    IDIBrake.calculateThrottleLevel 10 ≠ IDIBrake.seg_near_stop 10 := by
  refine ⟨?_, ?_, ?_⟩ <;>
    norm_num [IDIBrake.calculateThrottleLevel, IDIBrake.seg_near_stop,
      IDI_HEALTHY, IDI_WARNING, IDI_CRITICAL, IDI_QUARANTINE]

/-- C2 amended: the brake curve's breakpoints are 3, 5, 7 and 10; it is
continuous at 3, 5 and 7 (the function value equals both adjacent segment
formulas there), debt ≥ 10 maps to 0, but at the quarantine threshold 10
the curve jumps: the adjacent segment's limit is 1/10 while the value is 0. -/
theorem C2_amended_breakpoint_continuity :
    (IDIBrake.calculateThrottleLevel 3 = 1 ∧ IDIBrake.seg_warning 3 = 1) ∧
    (IDIBrake.calculateThrottleLevel 5 = 7/10 ∧ IDIBrake.seg_warning 5 = 7/10 ∧
      IDIBrake.seg_critical 5 = 7/10) ∧
    (IDIBrake.calculateThrottleLevel 7 = 3/10 ∧ IDIBrake.seg_critical 7 = 3/10 ∧
      IDIBrake.seg_near_stop 7 = 3/10) ∧
    (IDIBrake.calculateThrottleLevel 10 = 0 ∧ IDIBrake.seg_near_stop 10 = 1/10) ∧
    (∀ idi : ℚ, IDI_QUARANTINE ≤ idi → IDIBrake.calculateThrottleLevel idi = 0) := by
  have hq : ∀ idi : ℚ, IDI_QUARANTINE ≤ idi →
      IDIBrake.calculateThrottleLevel idi = 0 := by
    intro idi h
    rw [IDI_QUARANTINE] at h
    unfold IDIBrake.calculateThrottleLevel
    rw [IDI_HEALTHY, IDI_WARNING, IDI_CRITICAL, IDI_QUARANTINE]
    rw [if_neg (not_lt.mpr (by linarith)), if_neg (not_lt.mpr (by linarith)),
      if_neg (not_lt.mpr (by linarith)), if_neg (not_lt.mpr h)]
  refine ⟨⟨?_, ?_⟩, ⟨?_, ?_, ?_⟩, ⟨?_, ?_, ?_⟩, ⟨?_, ?_⟩, hq⟩ <;>
    norm_num [IDIBrake.calculateThrottleLevel, IDIBrake.seg_warning,
      IDIBrake.seg_critical, IDIBrake.seg_near_stop,
      IDI_HEALTHY, IDI_WARNING, IDI_CRITICAL, IDI_QUARANTINE]

/-- C2 amended witness: the quantified clause of the amended claim applied
at debt = 12. -/
theorem C2_amended_breakpoint_continuity_witness :
    IDIBrake.calculateThrottleLevel 12 = 0 :=
  C2_amended_breakpoint_continuity.2.2.2.2 12 (by norm_num [IDI_QUARANTINE])

/-- C3 counterexample: at debt = 6 the brake curve returns 1/2, while the
claimed single interpolation 0.7 − 0.4·(debt − 5)/5 yields 31/50 = 0.62 —
so on [5, 10) the curve is not that single line. -/
theorem C3_counterexample_at_six :
    IDIBrake.calculateThrottleLevel 6 = 1/2 ∧
    7/10 - (4/10) * ((6 - 5) / 5) = (31/50 : ℚ) ∧
    (1/2 : ℚ) ≠ 31/50 := by
  refine ⟨?_, by norm_num, by norm_num⟩
  norm_num [IDIBrake.calculateThrottleLevel,
    IDI_HEALTHY, IDI_WARNING, IDI_CRITICAL, IDI_QUARANTINE]

/-- C3 amended: on [5, 10) the brake curve consists of two distinct linear
segments split at the 7.0 CRITICAL threshold: 0.7 → 0.3 on [5, 7) (slope
over width 2) and 0.3 → 0.1 on [7, 10) (width 3) — the 0.3 → 0.1 band has
width 3, not zero. -/
theorem C3_amended_two_segments (idi : ℚ) :
    (5 ≤ idi → idi < 7 →
      IDIBrake.calculateThrottleLevel idi = 7/10 - (4/10) * ((idi - 5) / 2)) ∧
    (7 ≤ idi → idi < 10 →
      IDIBrake.calculateThrottleLevel idi = 3/10 - (2/10) * ((idi - 7) / 3)) := by
  constructor
  · intro h1 h2
    unfold IDIBrake.calculateThrottleLevel
    rw [IDI_HEALTHY, IDI_WARNING, IDI_CRITICAL, IDI_QUARANTINE]
    rw [if_neg (not_lt.mpr (by linarith)), if_neg (not_lt.mpr h1), if_pos h2]
    ring
  · intro h1 h2
    unfold IDIBrake.calculateThrottleLevel
    rw [IDI_HEALTHY, IDI_WARNING, IDI_CRITICAL, IDI_QUARANTINE]
    rw [if_neg (not_lt.mpr (by linarith)), if_neg (not_lt.mpr (by linarith)),
      if_neg (not_lt.mpr h1), if_pos h2]
    ring

/-- C3 amended witness: both segments of the amended claim applied at
debt = 6 and debt = 8. -/
theorem C3_amended_two_segments_witness :
    IDIBrake.calculateThrottleLevel 6 = 7/10 - (4/10) * ((6 - 5) / 2) ∧
    IDIBrake.calculateThrottleLevel 8 = 3/10 - (2/10) * ((8 - 7) / 3) :=
  ⟨(C3_amended_two_segments 6).1 (by norm_num) (by norm_num),
   (C3_amended_two_segments 8).2 (by norm_num) (by norm_num)⟩

/-- C4 counterexample: with days = 10, loc = 0, deps = 10, days_ahead = 1
and daily_loc_rate = 0.9, the source's `predictIDI` truncates 0.9 to 0 and
returns 0, while the claimed round-to-nearest variant would use
loc + round(0.9) = 1 and return 11/1000. -/
theorem C4_counterexample_truncation :
    IDICalculator.predictIDI 10 0 10 1 (9/10) = 0 ∧
    IDICalculator.calculate (10 + 1) (0 + ratRound ((9/10) * (1:ℤ))) 10 = 11/1000 ∧
    IDICalculator.predictIDI 10 0 10 1 (9/10) ≠
      IDICalculator.calculate (10 + 1) (0 + ratRound ((9/10) * (1:ℤ))) 10 := by
  have h1 : IDICalculator.predictIDI 10 0 10 1 (9/10) = 0 := by
    norm_num [IDICalculator.predictIDI, IDICalculator.calculate, ratTrunc, maxI]
  have h2 : ratRound ((9/10) * (1:ℤ)) = 1 := by
    norm_num [ratRound]
  refine ⟨h1, ?_, ?_⟩
  · rw [h2]
    norm_num [IDICalculator.calculate, maxI]
  · rw [h1, h2]
    norm_num [IDICalculator.calculate, maxI]

/-- C4 amended: `predict` equals `score` applied to days + days_ahead and
loc + trunc(daily_loc_rate × days_ahead), where the projected extra lines
are truncated toward zero (C++ `static_cast<int>`); for a non-negative
product the truncation is the floor, not round-to-nearest. -/
theorem C4_amended_predict_truncates (days loc deps ahead : ℤ) (rate : ℚ) :
    (IDICalculator.predictIDI days loc deps ahead rate =
      IDICalculator.calculate (days + ahead)
        (loc + ratTrunc (rate * (ahead : ℚ))) deps) ∧
    (0 ≤ rate * (ahead : ℚ) →
      ratTrunc (rate * (ahead : ℚ)) = ⌊rate * (ahead : ℚ)⌋) := by
  refine ⟨rfl, fun h => ?_⟩
  rw [ratTrunc, if_pos h]

/-- C4 amended witness: the amended claim applied at days = 10, loc = 0,
deps = 10, days_ahead = 1, daily_loc_rate = 0.9. -/
theorem C4_amended_predict_truncates_witness :
    IDICalculator.predictIDI 10 0 10 1 (9/10) =
      IDICalculator.calculate (10 + 1) (0 + ratTrunc ((9/10) * ((1:ℤ) : ℚ))) 10 ∧
    ratTrunc ((9/10) * ((1:ℤ) : ℚ)) = ⌊(9/10 : ℚ) * ((1:ℤ) : ℚ)⌋ :=
  ⟨(C4_amended_predict_truncates 10 0 10 1 (9/10)).1,
   (C4_amended_predict_truncates 10 0 10 1 (9/10)).2 (by norm_num)⟩

/-- C5: `DebtScorer.severity` classifies exactly by the bands
debt < 3 (HEALTHY), 3 ≤ debt < 5 (WARNING), 5 ≤ debt < 10 (CRITICAL),
debt ≥ 10 (QUARANTINE) — so the 7.0 CRITICAL constant plays no role —
with the claimed boundary examples. -/
theorem C5_severity_bands :
    (∀ idi : ℚ, IDICalculator.getSeverity idi = SeverityLevel.HEALTHY ↔ idi < 3) ∧
    (∀ idi : ℚ, IDICalculator.getSeverity idi = SeverityLevel.WARNING ↔ 3 ≤ idi ∧ idi < 5) ∧
    (∀ idi : ℚ, IDICalculator.getSeverity idi = SeverityLevel.CRITICAL ↔ 5 ≤ idi ∧ idi < 10) ∧
    (∀ idi : ℚ, IDICalculator.getSeverity idi = SeverityLevel.QUARANTINE ↔ 10 ≤ idi) ∧
    IDICalculator.getSeverity (2999/1000) = SeverityLevel.HEALTHY ∧
    IDICalculator.getSeverity 3 = SeverityLevel.WARNING ∧
    IDICalculator.getSeverity (4999/1000) = SeverityLevel.WARNING ∧
    IDICalculator.getSeverity 5 = SeverityLevel.CRITICAL ∧
    IDICalculator.getSeverity (9999/1000) = SeverityLevel.CRITICAL ∧
    IDICalculator.getSeverity 10 = SeverityLevel.QUARANTINE := by
  have hchar : ∀ idi : ℚ,
      (IDICalculator.getSeverity idi = SeverityLevel.HEALTHY ↔ idi < 3) ∧
      (IDICalculator.getSeverity idi = SeverityLevel.WARNING ↔ 3 ≤ idi ∧ idi < 5) ∧
      (IDICalculator.getSeverity idi = SeverityLevel.CRITICAL ↔ 5 ≤ idi ∧ idi < 10) ∧
      (IDICalculator.getSeverity idi = SeverityLevel.QUARANTINE ↔ 10 ≤ idi) := by
    intro idi
    unfold IDICalculator.getSeverity
    rw [IDI_HEALTHY, IDI_WARNING, IDI_QUARANTINE]
    split_ifs with h1 h2 h3
    · exact ⟨⟨fun _ => h1, fun _ => rfl⟩,
        ⟨fun h => by simp at h, fun h => absurd h.1 (not_le.mpr h1)⟩,
        ⟨fun h => by simp at h, fun h => absurd h.1 (by linarith)⟩,
        ⟨fun h => by simp at h, fun h => absurd h (by linarith)⟩⟩
    · exact ⟨⟨fun h => by simp at h, fun h => absurd h h1⟩,
        ⟨fun _ => ⟨not_lt.mp h1, h2⟩, fun _ => rfl⟩,
        ⟨fun h => by simp at h, fun h => absurd h.1 (not_le.mpr h2)⟩,
        ⟨fun h => by simp at h, fun h => absurd h (by linarith)⟩⟩
    · exact ⟨⟨fun h => by simp at h, fun h => absurd h (by linarith [not_lt.mp h2])⟩,
        ⟨fun h => by simp at h, fun h => absurd h.2 (not_lt.mpr (not_lt.mp h2))⟩,
        ⟨fun _ => ⟨not_lt.mp h2, h3⟩, fun _ => rfl⟩,
        ⟨fun h => by simp at h, fun h => absurd h (not_le.mpr h3)⟩⟩
    · exact ⟨⟨fun h => by simp at h, fun h => absurd h (by linarith [not_lt.mp h3])⟩,
        ⟨fun h => by simp at h, fun h => absurd h.2 (by linarith [not_lt.mp h3])⟩,
        ⟨fun h => by simp at h, fun h => absurd h.2 (not_lt.mpr (not_lt.mp h3))⟩,
        ⟨fun _ => not_lt.mp h3, fun _ => rfl⟩⟩
  refine ⟨fun idi => (hchar idi).1, fun idi => (hchar idi).2.1,
    fun idi => (hchar idi).2.2.1, fun idi => (hchar idi).2.2.2, ?_, ?_, ?_, ?_, ?_, ?_⟩ <;>
    norm_num [IDICalculator.getSeverity, IDI_HEALTHY, IDI_WARNING, IDI_QUARANTINE]

/-- C6 counterexample: for the scenario snapshot (cpu 90, mem 60,
throughput 1200 vs target 1000, latency 50, error rate 0.001, no
temperature) the code computes softwareDemand = 57.7, not the claimed
62.52, and imbalance = −0.177, not the claimed −0.2252. -/
theorem C6_counterexample_demand_value :
    HardwareSoftwareBalancer.calculateSoftwareDemand 1000 scenarioSnapshot = 577/10 ∧
    (577/10 : ℚ) ≠ 6252/100 ∧
    HardwareSoftwareBalancer.calculateImbalance 40 (577/10) = -(177/1000) ∧
    (-(177/1000) : ℚ) ≠ -(2252/10000) := by
  refine ⟨?_, by norm_num, ?_, by norm_num⟩
  · norm_num [HardwareSoftwareBalancer.calculateSoftwareDemand, scenarioSnapshot,
      minQ, LATENCY_WARNING_MS, LATENCY_CRITICAL_MS]
  · norm_num [HardwareSoftwareBalancer.calculateImbalance]

/-- C6 amended: on the scenario snapshot the code computes
hardwareCapacity = 40, softwareDemand = 57.7 and imbalance = −0.177,
which lies inside the ±0.3 band, so `balance` (from an empty history, at
throttle 1) returns action NONE with the throttle unchanged. -/
theorem C6_amended_scenario_none :
    HardwareSoftwareBalancer.calculateHardwareCapacity scenarioSnapshot = 40 ∧
    HardwareSoftwareBalancer.calculateSoftwareDemand 1000 scenarioSnapshot = 577/10 ∧
    HardwareSoftwareBalancer.calculateImbalance 40 (577/10) = -(177/1000) ∧
    |(-(177/1000) : ℚ)| < HW_SW_IMBALANCE_THRESHOLD ∧
    (HardwareSoftwareBalancer.balance 1000 [] scenarioSnapshot 1).2.action =
      MitigationAction.NONE ∧
    (HardwareSoftwareBalancer.balance 1000 [] scenarioSnapshot 1).2.throttle_level = 1 := by
  refine ⟨?_, ?_, ?_, ?_, ?_, ?_⟩
  · norm_num [HardwareSoftwareBalancer.calculateHardwareCapacity, scenarioSnapshot,
      TEMPERATURE_WARNING, TEMPERATURE_CRITICAL]
  · norm_num [HardwareSoftwareBalancer.calculateSoftwareDemand, scenarioSnapshot,
      minQ, LATENCY_WARNING_MS, LATENCY_CRITICAL_MS]
  · norm_num [HardwareSoftwareBalancer.calculateImbalance]
  · rw [HW_SW_IMBALANCE_THRESHOLD]
    rw [abs_of_nonpos (by norm_num)]
    norm_num
  · norm_num [HardwareSoftwareBalancer.balance, scenarioSnapshot,
      HardwareSoftwareBalancer.calculateHardwareCapacity,
      HardwareSoftwareBalancer.calculateSoftwareDemand,
      HardwareSoftwareBalancer.calculateImbalance,
      HardwareSoftwareBalancer.getBalancingAction,
      HardwareSoftwareBalancer.evictOld, HardwareSoftwareBalancer.moving_avg_window,
      minQ, maxQ, absQ, TEMPERATURE_WARNING, TEMPERATURE_CRITICAL,
      LATENCY_WARNING_MS, LATENCY_CRITICAL_MS, HW_SW_IMBALANCE_THRESHOLD]
  · norm_num [HardwareSoftwareBalancer.balance, scenarioSnapshot,
      HardwareSoftwareBalancer.calculateHardwareCapacity,
      HardwareSoftwareBalancer.calculateSoftwareDemand,
      HardwareSoftwareBalancer.calculateImbalance,
      HardwareSoftwareBalancer.getBalancingAction,
      HardwareSoftwareBalancer.evictOld, HardwareSoftwareBalancer.moving_avg_window,
      minQ, maxQ, absQ, TEMPERATURE_WARNING, TEMPERATURE_CRITICAL,
      LATENCY_WARNING_MS, LATENCY_CRITICAL_MS, HW_SW_IMBALANCE_THRESHOLD]

/-- C7: every `FeedbackController.step` output lies in [−0.3, 0.3] and is
exactly the clamped normalized PID sum with the integral clamped to
[−50, 50] before use; the post-step integral is always in [−50, 50], and
from any reachable state (integral in [−50, 50]), any positive number of
consecutive steps at a constant error ≥ 100 leaves the integral saturated
at exactly 50. -/
theorem C7_pid_bounds_and_saturation :
    (∀ (st : PIDState) (current_value : ℚ),
        -(3/10) ≤ (PIDController.calculate st current_value).1 ∧
        (PIDController.calculate st current_value).1 ≤ 3/10) ∧
    (∀ (st : PIDState) (current_value : ℚ),
        (PIDController.calculate st current_value).1 =
          max (-(3/10)) (min ((st.kp * (st.target - current_value) +
            st.ki * (max (-50) (min (st.integral + (st.target - current_value)) 50)) +
            st.kd * ((st.target - current_value) - st.previous_error)) / 100) (3/10))) ∧
    (∀ (st : PIDState) (current_value : ℚ),
        -50 ≤ (PIDController.calculate st current_value).2.integral ∧
        (PIDController.calculate st current_value).2.integral ≤ 50) ∧
    (∀ (st : PIDState) (current_value : ℚ) (n : Nat),
        -50 ≤ st.integral → 100 ≤ st.target - current_value → 1 ≤ n →
        (PIDController.iterate st current_value n).integral = 50) := by
  have hout : ∀ (st : PIDState) (current_value : ℚ),
      (PIDController.calculate st current_value).1 =
        clampQ ((st.kp * (st.target - current_value) +
          st.ki * (clampQ (st.integral + (st.target - current_value)) (-50) 50) +
          st.kd * ((st.target - current_value) - st.previous_error)) / 100)
          (-(3/10)) (3/10) := fun st current_value => rfl
  have hint : ∀ (st : PIDState) (current_value : ℚ),
      (PIDController.calculate st current_value).2.integral =
        clampQ (st.integral + (st.target - current_value)) (-50) 50 :=
    fun st current_value => rfl
  have hclamp_mem : ∀ x lo hi : ℚ, lo ≤ hi → lo ≤ clampQ x lo hi ∧ clampQ x lo hi ≤ hi := by
    intro x lo hi h
    rw [clampQ_eq]
    exact ⟨le_max_left lo _, max_le h (min_le_right x hi)⟩
  have hsat : ∀ (st : PIDState), -50 ≤ st.integral → ∀ e : ℚ, 100 ≤ e →
      clampQ (st.integral + e) (-50) 50 = 50 := by
    intro st hst e he
    rw [clampQ_eq]
    rw [min_eq_right (by linarith), max_eq_right (by linarith)]
  have htgt : ∀ (st : PIDState) (cv : ℚ) (m : Nat),
      (PIDController.iterate st cv m).target = st.target := by
    intro st cv m
    induction m with
    | zero => rfl
    | succ k ihk => exact ihk
  refine ⟨fun st cv => ?_, fun st cv => ?_, fun st cv => ?_, ?_⟩
  · rw [hout]
    exact hclamp_mem _ _ _ (by norm_num)
  · rw [hout, clampQ_eq, clampQ_eq]
  · rw [hint]
    exact hclamp_mem _ _ _ (by norm_num)
  · intro st cv n hst herr
    induction n with
    | zero => intro hn; omega
    | succ m ih =>
        intro _
        rcases Nat.eq_zero_or_pos m with hm | hm
        · subst hm
          show (PIDController.calculate st cv).2.integral = 50
          rw [hint]
          exact hsat st hst _ herr
        · have hprev := ih hm
          show (PIDController.calculate (PIDController.iterate st cv m) cv).2.integral = 50
          rw [hint]
          have hhyp : -50 ≤ (PIDController.iterate st cv m).integral := by
            rw [hprev]; norm_num
          rw [htgt st cv m]
          exact hsat _ hhyp _ herr

/-- C7 witness: the saturation clause of the theorem applied to the default
controller (target 70, integral 0) driven for 3 steps at current value
−50 (constant error 120 ≥ 100). -/
theorem C7_pid_bounds_and_saturation_witness :
    (PIDController.iterate pidDefaultState (-50) 3).integral = 50 :=
  C7_pid_bounds_and_saturation.2.2.2 pidDefaultState (-50) 3
    (by norm_num [pidDefaultState]) (by norm_num [pidDefaultState]) (by norm_num)

/-- The source's eviction loop drops oldest entries from the front until at
most 2×window = 20 remain. -/
theorem evictOld_eq_drop (l : List BalanceMetrics) :
    HardwareSoftwareBalancer.evictOld l = l.drop (l.length - 20) := by
  induction l with
  | nil => rfl
  | cons x xs ih =>
      rw [HardwareSoftwareBalancer.evictOld]
      simp only [HardwareSoftwareBalancer.moving_avg_window]
      split_ifs with h
      · rw [ih]
        have hlen : (x :: xs).length - 20 = (xs.length - 20) + 1 := by
          simp only [List.length_cons] at h ⊢
          omega
        rw [hlen, List.drop_succ_cons]
      · have hlen : (x :: xs).length - 20 = 0 := by
          simp only [List.length_cons] at h ⊢
          omega
        rw [hlen, List.drop_zero]

/-- C8: from any history of at most 20 samples, one `evaluate` call leaves
at most 20 entries, the new history is the appended list with the oldest
entries dropped from the front, and the decision is made on the mean of
the 10 most recent imbalances when at least 10 samples are held, else on
the instantaneous imbalance of the current snapshot. -/
theorem C8_history_bound_and_smoothing (history : List BalanceMetrics)
    (t : TelemetryData) (target_throughput current_throttle : ℚ)
    (h : history.length ≤ 20) :
    ((HardwareSoftwareBalancer.balance target_throughput history t
        current_throttle).1).length ≤ 20 ∧
    (HardwareSoftwareBalancer.balance target_throughput history t
        current_throttle).1 =
      (history ++ [HardwareSoftwareBalancer.mkSample target_throughput t]).drop
        ((history.length + 1) - 20) ∧
    (10 ≤ ((HardwareSoftwareBalancer.balance target_throughput history t
        current_throttle).1).length →
      (HardwareSoftwareBalancer.balance target_throughput history t
          current_throttle).2 =
        HardwareSoftwareBalancer.getBalancingAction
          ((((HardwareSoftwareBalancer.balance target_throughput history t
              current_throttle).1.drop
                (((HardwareSoftwareBalancer.balance target_throughput history t
                  current_throttle).1).length - 10)).map
              BalanceMetrics.imbalance).sum / 10)
          t.component_id current_throttle) ∧
    (((HardwareSoftwareBalancer.balance target_throughput history t
        current_throttle).1).length < 10 →
      (HardwareSoftwareBalancer.balance target_throughput history t
          current_throttle).2 =
        HardwareSoftwareBalancer.getBalancingAction
          (HardwareSoftwareBalancer.mkSample target_throughput t).imbalance
          t.component_id current_throttle) := by
  set s := HardwareSoftwareBalancer.mkSample target_throughput t with hs
  have h1 : (HardwareSoftwareBalancer.balance target_throughput history t
      current_throttle).1 =
      HardwareSoftwareBalancer.evictOld (history ++ [s]) := rfl
  have h2 : (HardwareSoftwareBalancer.balance target_throughput history t
      current_throttle).2 =
      HardwareSoftwareBalancer.getBalancingAction
        (if HardwareSoftwareBalancer.moving_avg_window ≤
            (HardwareSoftwareBalancer.evictOld (history ++ [s])).length then
          (((HardwareSoftwareBalancer.evictOld (history ++ [s])).drop
              ((HardwareSoftwareBalancer.evictOld (history ++ [s])).length -
                HardwareSoftwareBalancer.moving_avg_window)).map
            BalanceMetrics.imbalance).sum /
            (HardwareSoftwareBalancer.moving_avg_window : ℚ)
         else s.imbalance)
        t.component_id current_throttle := rfl
  have hlenapp : (history ++ [s]).length = history.length + 1 := by
    simp
  refine ⟨?_, ?_, ?_, ?_⟩
  · rw [h1, evictOld_eq_drop]
    simp only [List.length_drop, hlenapp]
    omega
  · rw [h1, evictOld_eq_drop, hlenapp]
  · intro hge
    rw [h1] at hge
    rw [h1, h2]
    simp only [HardwareSoftwareBalancer.moving_avg_window, Nat.cast_ofNat]
    rw [if_pos hge]
  · intro hlt
    rw [h1] at hlt
    rw [h2]
    simp only [HardwareSoftwareBalancer.moving_avg_window, Nat.cast_ofNat]
    rw [if_neg (not_le.mpr hlt)]

/-- C8 witness: the theorem applied at an empty history (taking the
instantaneous branch) with the scenario snapshot. -/
theorem C8_history_bound_and_smoothing_witness :
    ((HardwareSoftwareBalancer.balance 1000 [] scenarioSnapshot 1).1).length ≤ 20 ∧
    (HardwareSoftwareBalancer.balance 1000 [] scenarioSnapshot 1).2 =
      HardwareSoftwareBalancer.getBalancingAction
        (HardwareSoftwareBalancer.mkSample 1000 scenarioSnapshot).imbalance
        scenarioSnapshot.component_id 1 := by
  have h := C8_history_bound_and_smoothing [] scenarioSnapshot 1000 1 (by norm_num)
  refine ⟨h.1, h.2.2.2 ?_⟩
  rw [h.2.1]
  norm_num

/-- C9: `QuarantineGate.canRestore` is true iff debt < 5, health ≥ 70 and
at least one hour (3600 s, under the truncating duration cast) has elapsed
since quarantine; false at 59 minutes even with perfect debt/health, true
at exactly 60 minutes with debt 4.9 and health 70. -/
theorem C9_canRestore_iff :
    (∀ (idi health_score : ℚ) (now quarantined_at : ℤ),
        NeuralPruning.canRestore idi health_score now quarantined_at = true ↔
          idi < 5 ∧ 70 ≤ health_score ∧ 3600 ≤ now - quarantined_at) ∧
    NeuralPruning.canRestore 0 100 3540 0 = false ∧
    NeuralPruning.canRestore (49/10) 70 3600 0 = true := by
  have hdiv : ∀ e : ℤ, tdivInt e 3600 < 1 ↔ e < 3600 := by
    intro e
    unfold tdivInt
    split_ifs with h
    · rw [Int.ediv_lt_iff_lt_mul (by norm_num : (0:ℤ) < 3600)]
      omega
    · constructor
      · intro _; omega
      · intro _
        have h2 : (0:ℤ) ≤ -e / 3600 := Int.ediv_nonneg (by omega) (by norm_num)
        omega
  refine ⟨fun idi health_score now quarantined_at => ?_, ?_, ?_⟩
  · unfold NeuralPruning.canRestore
    rw [IDI_WARNING]
    split_ifs with h1 h2 h3
    · exact ⟨fun h => by simp at h, fun h => absurd h.1 (not_lt.mpr h1)⟩
    · exact ⟨fun h => by simp at h, fun h => absurd h.2.1 (not_le.mpr h2)⟩
    · rw [hdiv] at h3
      exact ⟨fun h => by simp at h, fun h => absurd h.2.2 (not_le.mpr h3)⟩
    · rw [hdiv, not_lt] at h3
      exact ⟨fun _ => ⟨not_le.mp h1, not_lt.mp h2, h3⟩, fun _ => rfl⟩
  · norm_num [NeuralPruning.canRestore, tdivInt, IDI_WARNING]
  · norm_num [NeuralPruning.canRestore, tdivInt, IDI_WARNING]

/-- C10: at a smoothed imbalance of exactly +0.3 or −0.3 the decision falls
into the boost/else branch: action ALERT with throttle
min(current + 0.3, 1) at +0.3 and min(current − 0.3, 1) at −0.3 — the
latter a decrease with no 0.2 floor (e.g. throttle 0.1 from 0.4). -/
theorem C10_boundary_imbalance_alert :
    (∀ (component_id : String) (current_throttle : ℚ),
        (HardwareSoftwareBalancer.getBalancingAction (3/10) component_id
            current_throttle).action = MitigationAction.ALERT ∧
        (HardwareSoftwareBalancer.getBalancingAction (3/10) component_id
            current_throttle).throttle_level = min (current_throttle + 3/10) 1) ∧
    (∀ (component_id : String) (current_throttle : ℚ),
        (HardwareSoftwareBalancer.getBalancingAction (-(3/10)) component_id
            current_throttle).action = MitigationAction.ALERT ∧
        (HardwareSoftwareBalancer.getBalancingAction (-(3/10)) component_id
            current_throttle).throttle_level = min (current_throttle - 3/10) 1) ∧
    (∀ component_id : String,
        (HardwareSoftwareBalancer.getBalancingAction (-(3/10)) component_id
            (4/10)).throttle_level = 1/10) := by
  have habs : absQ (3/10 : ℚ) = 3/10 := by norm_num [absQ]
  have habs2 : absQ (-(3/10) : ℚ) = 3/10 := by norm_num [absQ]
  have hmin : minQ (3/10 : ℚ) (3/10) = 3/10 := by norm_num [minQ]
  have hmin2 : minQ (-(3/10) : ℚ) (3/10) = -(3/10) := by norm_num [minQ]
  refine ⟨fun component_id current_throttle => ?_,
    fun component_id current_throttle => ?_, fun component_id => ?_⟩
  · unfold HardwareSoftwareBalancer.getBalancingAction
    rw [HW_SW_IMBALANCE_THRESHOLD]
    norm_num [habs, hmin, minQ_eq_min]
  · unfold HardwareSoftwareBalancer.getBalancingAction
    rw [HW_SW_IMBALANCE_THRESHOLD]
    norm_num [habs2, hmin2, minQ_eq_min]
    congr 1
    ring
  · unfold HardwareSoftwareBalancer.getBalancingAction
    rw [HW_SW_IMBALANCE_THRESHOLD]
    norm_num [habs2, hmin2, minQ]

end Synapse
